import Mathlib

/-!
Verification of the cost-policy and node-update engine of the LatinIME
suggestion core, embedded from
`src/native/jni/src/suggest/core/policy/weighting.cpp`.

Costs (C++ `float`) are modelled as rationals `ℚ`; the claims under study
are structural (which branches yield zero, monotonicity of sums), not
about floating-point rounding.  The abstract `Weighting` virtual interface
(implemented outside this translation unit) is modelled as a structure of
functions; the `DicNode` state mutations performed through pointers in the
C++ code are modelled by explicit state passing.
-/

namespace latinime

/-- The edit-operation taxonomy (`CorrectionType` in `defines.h`, a header
not included in the sources under study).  Modelled from the spec: the ten
tags of the closed taxonomy (§2, §6), plus `CT_UNKNOWN code`, which stands
for any enumeration value outside the ten-tag taxonomy — such values are
exactly what the `default:` branches of every switch in `weighting.cpp`
handle. -/
inductive CorrectionType where
  | CT_OMISSION
  | CT_ADDITIONAL_PROXIMITY
  | CT_SUBSTITUTION
  | CT_NEW_WORD
  | CT_MATCH
  | CT_COMPLETION
  | CT_TERMINAL
  | CT_SPACE_SUBSTITUTION
  | CT_INSERTION
  | CT_TRANSPOSITION
  | CT_UNKNOWN (code : ℤ)
deriving DecidableEq, Repr

/-- Modelled from the spec: the fields of `DicNode_InputStateG`
(`dic_node_state_input.h`, not among the sources) that the node-update
algorithm reads — the override flag set by the spatial-cost computation
(§4.3 input-state side-channel) and the replacement input-cursor value. -/
structure DicNode_InputStateG where
  mNeedsToUpdateInputStateG : Bool
  mInputIndex : ℕ
deriving DecidableEq, Repr

/-- Modelled from the spec: the `SearchNode`/`DicNode` state (§3) touched by
the node-update algorithm: accumulated cost, input cursor, the edit- and
proximity-correction tallies, the terminal flag, and the
"derived from a swap" mark set by the transposition cursor rule (§4.4). -/
structure DicNode where
  accumulatedCost : ℚ
  inputCursor : ℕ
  editCount : ℕ
  proximityCount : ℕ
  isTerminal : Bool
  derivedFromSwap : Bool
deriving DecidableEq, Repr

/-- Modelled from the spec: the per-request `SearchSession` context (§3)
read by the engine — input size and an opaque dictionary handle
(`getOffsetDict` in the C++ code). -/
structure DicTraverseSession where
  inputSize : ℕ
  offsetDict : ℤ
deriving DecidableEq, Repr

def DicTraverseSession.getInputSize (s : DicTraverseSession) : ℕ := s.inputSize

def DicTraverseSession.getOffsetDict (s : DicTraverseSession) : ℤ := s.offsetDict

/-- The session-scoped bigram memoization cache
(`hash_map_compat<int, int16_t>` in the C++ code), as an association list
from dictionary-position keys to memoized improbability scores. -/
abbrev BigramCacheMap := List (ℤ × ℤ)

/-- The abstract `Weighting` cost-policy interface: one field per virtual
method that `weighting.cpp` invokes.  The virtuals are implemented by the
per-modality policies outside this translation unit, so they are opaque
function parameters here.  `getMatchedCost` receives and may rewrite the
input-state side-channel; `getNewWordBigramCost` may write the bigram
cache. -/
structure Weighting where
  getOmissionCost : DicNode → DicNode → ℚ
  getAdditionalProximityCost : ℚ
  getSubstitutionCost : ℚ
  getNewWordCost : DicNode → ℚ
  getMatchedCost : DicTraverseSession → DicNode → DicNode_InputStateG →
      ℚ × DicNode_InputStateG
  getCompletionCost : DicTraverseSession → DicNode → ℚ
  getTerminalSpatialCost : DicTraverseSession → DicNode → ℚ
  getSpaceSubstitutionCost : ℚ
  getInsertionCost : DicTraverseSession → DicNode → DicNode → ℚ
  getTranspositionCost : DicTraverseSession → DicNode → DicNode → ℚ
  getNewWordBigramCost : DicTraverseSession → DicNode → BigramCacheMap →
      ℚ × BigramCacheMap
  getTerminalLanguageCost : DicTraverseSession → DicNode → ℚ → ℚ
  isProximityDicNode : DicTraverseSession → DicNode → Bool
  needsToNormalizeCompoundDistance : Bool

/-- Modelled from the spec: `DicNodeUtils::getBigramNodeImprobability`
(`dic_node_utils.cpp`, not among the sources) — the bigram-improbability
resolver used by the TERMINAL language-cost branch; it reads the dictionary
and may write the session's bigram cache (§4.3).  Kept abstract as a
function of the dictionary handle, the node, and the cache. -/
structure DicNodeUtilsModel where
  getBigramNodeImprobability : ℤ → DicNode → BigramCacheMap → ℚ × BigramCacheMap

/-- `Weighting::getSpatialCost` (weighting.cpp lines 97–127): dispatch on
the correction type to the policy's per-operation spatial-cost virtual;
only the `CT_MATCH` branch may rewrite the input-state side-channel;
the `default:` branch returns `0.0f`. -/
def Weighting.getSpatialCost (weighting : Weighting) (correctionType : CorrectionType)
    (traverseSession : DicTraverseSession) (parentDicNode dicNode : DicNode)
    (inputStateG : DicNode_InputStateG) : ℚ × DicNode_InputStateG :=
  match correctionType with
  | .CT_OMISSION =>
      (weighting.getOmissionCost parentDicNode dicNode, inputStateG)
  | .CT_ADDITIONAL_PROXIMITY =>
      -- only used for typing
      (weighting.getAdditionalProximityCost, inputStateG)
  | .CT_SUBSTITUTION =>
      -- only used for typing
      (weighting.getSubstitutionCost, inputStateG)
  | .CT_NEW_WORD =>
      (weighting.getNewWordCost dicNode, inputStateG)
  | .CT_MATCH =>
      weighting.getMatchedCost traverseSession dicNode inputStateG
  | .CT_COMPLETION =>
      (weighting.getCompletionCost traverseSession dicNode, inputStateG)
  | .CT_TERMINAL =>
      (weighting.getTerminalSpatialCost traverseSession dicNode, inputStateG)
  | .CT_SPACE_SUBSTITUTION =>
      (weighting.getSpaceSubstitutionCost, inputStateG)
  | .CT_INSERTION =>
      (weighting.getInsertionCost traverseSession parentDicNode dicNode, inputStateG)
  | .CT_TRANSPOSITION =>
      (weighting.getTranspositionCost traverseSession parentDicNode dicNode, inputStateG)
  | .CT_UNKNOWN _ =>
      (0, inputStateG)

/-- `Weighting::getLanguageCost` (weighting.cpp lines 129–159): only the
`CT_NEW_WORD` and `CT_TERMINAL` branches consult the policy (and may touch
the bigram cache); every other branch, including the `default:` one that
also covers `CT_ADDITIONAL_PROXIMITY` (absent from this switch), returns
`0.0f`. -/
def Weighting.getLanguageCost (weighting : Weighting) (utils : DicNodeUtilsModel)
    (correctionType : CorrectionType) (traverseSession : DicTraverseSession)
    (parentDicNode dicNode : DicNode) (bigramCacheMap : BigramCacheMap) :
    ℚ × BigramCacheMap :=
  match correctionType with
  | .CT_OMISSION => (0, bigramCacheMap)
  | .CT_SUBSTITUTION => (0, bigramCacheMap)
  | .CT_NEW_WORD =>
      weighting.getNewWordBigramCost traverseSession parentDicNode bigramCacheMap
  | .CT_MATCH => (0, bigramCacheMap)
  | .CT_COMPLETION => (0, bigramCacheMap)
  | .CT_TERMINAL =>
      let r := utils.getBigramNodeImprobability traverseSession.getOffsetDict
          dicNode bigramCacheMap
      (weighting.getTerminalLanguageCost traverseSession dicNode r.1, r.2)
  | .CT_SPACE_SUBSTITUTION => (0, bigramCacheMap)
  | .CT_INSERTION => (0, bigramCacheMap)
  | .CT_TRANSPOSITION => (0, bigramCacheMap)
  | _ => (0, bigramCacheMap)

/-- `Weighting::isEditCorrection` (weighting.cpp lines 161–188): true for
omission, insertion and transposition; false for every other tag —
including `CT_ADDITIONAL_PROXIMITY` and `CT_SUBSTITUTION`, whose branches
carry a "Should return true?" comment but return false. -/
def Weighting.isEditCorrection (correctionType : CorrectionType) : Bool :=
  match correctionType with
  | .CT_OMISSION => true
  | .CT_ADDITIONAL_PROXIMITY =>
      -- Should return true?
      false
  | .CT_SUBSTITUTION =>
      -- Should return true?
      false
  | .CT_NEW_WORD => false
  | .CT_MATCH => false
  | .CT_COMPLETION => false
  | .CT_TERMINAL => false
  | .CT_SPACE_SUBSTITUTION => false
  | .CT_INSERTION => true
  | .CT_TRANSPOSITION => true
  | _ => false

/-- `Weighting::isProximityCorrection` (weighting.cpp lines 190–217): only
the `CT_MATCH` branch delegates to the policy's near-key predicate; every
other branch returns false. -/
def Weighting.isProximityCorrection (weighting : Weighting)
    (correctionType : CorrectionType) (traverseSession : DicTraverseSession)
    (dicNode : DicNode) : Bool :=
  match correctionType with
  | .CT_OMISSION => false
  | .CT_ADDITIONAL_PROXIMITY => false
  | .CT_SUBSTITUTION => false
  | .CT_NEW_WORD => false
  | .CT_MATCH => weighting.isProximityDicNode traverseSession dicNode
  | .CT_COMPLETION => false
  | .CT_TERMINAL => false
  | .CT_SPACE_SUBSTITUTION => false
  | .CT_INSERTION => false
  | .CT_TRANSPOSITION => false
  | _ => false

/-- `Weighting::getForwardInputCount` (weighting.cpp lines 219–244): the
number of input positions each operation consumes. -/
def Weighting.getForwardInputCount (correctionType : CorrectionType) : ℕ :=
  match correctionType with
  | .CT_OMISSION => 0
  | .CT_ADDITIONAL_PROXIMITY => 0
  | .CT_SUBSTITUTION => 0
  | .CT_NEW_WORD => 0
  | .CT_MATCH => 1
  | .CT_COMPLETION => 0
  | .CT_TERMINAL => 0
  | .CT_SPACE_SUBSTITUTION => 1
  | .CT_INSERTION => 2
  | .CT_TRANSPOSITION => 2
  | _ => 0

/-- Modelled from the spec: `DicNode::updateInputIndexG` (`dic_node.h`, not
among the sources) — when the spatial-cost computation set the input-state
override flag, the node's input cursor is taken from the policy-provided
input state (§4.3, §4.4 step 4). -/
def DicNode.updateInputIndexG (dicNode : DicNode)
    (inputStateG : DicNode_InputStateG) : DicNode :=
  { dicNode with inputCursor := inputStateG.mInputIndex }

/-- Modelled from the spec: `DicNode::forwardInputIndex` (`dic_node.h`, not
among the sources) — the default cursor advance: the cursor moves forward
by `count` positions, and the node is marked as derived from a swap exactly
when the caller flags the step as a transposition (§4.4 step 4). -/
def DicNode.forwardInputIndex (dicNode : DicNode) (pointerId : ℕ) (count : ℕ)
    (isTransposition : Bool) : DicNode :=
  let _ := pointerId
  { dicNode with
      inputCursor := dicNode.inputCursor + count,
      derivedFromSwap := isTransposition }

/-- Modelled from the spec: `DicNode::addCost` (`dic_node.h`, not among the
sources) — §4.4 steps 5–6: the spatial and language costs are summed,
optionally divided by a function of the input size (here `max 1 inputSize`,
so the divisor is positive) when the policy normalizes compound distances,
then accumulated; the edit and proximity tallies are bumped per the
classification flags. -/
def DicNode.addCost (dicNode : DicNode) (spatialCost languageCost : ℚ)
    (doNormalization : Bool) (inputSize : ℕ) (edit proximity : Bool) : DicNode :=
  let rawCost := spatialCost + languageCost
  let cost := if doNormalization then rawCost / ((max 1 inputSize : ℕ) : ℚ) else rawCost
  { dicNode with
      accumulatedCost := dicNode.accumulatedCost + cost,
      editCount := dicNode.editCount + (if edit then 1 else 0),
      proximityCount := dicNode.proximityCount + (if proximity then 1 else 0) }

/-- `Weighting::addCostAndForwardInputIndex` (weighting.cpp lines 71–95):
the node-update entry point.  Computes the spatial cost (starting from a
cleared input-state side-channel), the language cost, the edit and
proximity classifications; then either applies the policy-provided input
state (when the override flag was set) or advances the cursor by the
forward-input count, flagging transpositions; finally accumulates the
combined cost.  The `profile` call is the DEBUG_DICT-only no-op.  The
mutations of the candidate node and the bigram cache are returned as the
pair of new values. -/
def Weighting.addCostAndForwardInputIndex (weighting : Weighting)
    (utils : DicNodeUtilsModel) (correctionType : CorrectionType)
    (traverseSession : DicTraverseSession) (parentDicNode : DicNode)
    (dicNode : DicNode) (bigramCacheMap : BigramCacheMap) :
    DicNode × BigramCacheMap :=
  let inputSize := traverseSession.getInputSize
  let inputStateG0 : DicNode_InputStateG :=
    { mNeedsToUpdateInputStateG := false, -- Don't use input info by default
      mInputIndex := 0 }
  let sc := Weighting.getSpatialCost weighting correctionType traverseSession
      parentDicNode dicNode inputStateG0
  let spatialCost := sc.1
  let inputStateG := sc.2
  let lc := Weighting.getLanguageCost weighting utils correctionType traverseSession
      parentDicNode dicNode bigramCacheMap
  let languageCost := lc.1
  let bigramCacheMap1 := lc.2
  let edit := Weighting.isEditCorrection correctionType
  let proximity := Weighting.isProximityCorrection weighting correctionType
      traverseSession dicNode
  let dicNode1 :=
    if inputStateG.mNeedsToUpdateInputStateG then
      dicNode.updateInputIndexG inputStateG
    else
      dicNode.forwardInputIndex 0 (Weighting.getForwardInputCount correctionType)
        (decide (correctionType = CorrectionType.CT_TRANSPOSITION))
  let dicNode2 := dicNode1.addCost spatialCost languageCost
      weighting.needsToNormalizeCompoundDistance inputSize edit proximity
  (dicNode2, bigramCacheMap1)

/-- The full traversal state visible to one node-update call: the parent
node, the candidate node, the session, and the bigram cache. -/
structure TraversalState where
  parentDicNode : DicNode
  dicNode : DicNode
  traverseSession : DicTraverseSession
  bigramCacheMap : BigramCacheMap
deriving Repr

/-- The node-update entry point as a transformer of the whole traversal
state: it rebuilds the state with the updated candidate node and bigram
cache returned by `Weighting.addCostAndForwardInputIndex`. -/
def Weighting.addCostStep (weighting : Weighting) (utils : DicNodeUtilsModel)
    (correctionType : CorrectionType) (st : TraversalState) : TraversalState :=
  let r := Weighting.addCostAndForwardInputIndex weighting utils correctionType
      st.traverseSession st.parentDicNode st.dicNode st.bigramCacheMap
  { st with dicNode := r.1, bigramCacheMap := r.2 }

/-! Concrete sample instances, used by the witness theorems. -/

/-- A concrete cost policy with all costs zero, no near-key matches and no
normalization. -/
def zeroWeighting : Weighting where
  getOmissionCost := fun _ _ => 0
  getAdditionalProximityCost := 0
  getSubstitutionCost := 0
  getNewWordCost := fun _ => 0
  getMatchedCost := fun _ _ g => (0, g)
  getCompletionCost := fun _ _ => 0
  getTerminalSpatialCost := fun _ _ => 0
  getSpaceSubstitutionCost := 0
  getInsertionCost := fun _ _ _ => 0
  getTranspositionCost := fun _ _ _ => 0
  getNewWordBigramCost := fun _ _ c => (0, c)
  getTerminalLanguageCost := fun _ _ q => q
  isProximityDicNode := fun _ _ => false
  needsToNormalizeCompoundDistance := false

/-- A concrete bigram-improbability resolver that always answers zero and
leaves the cache unchanged. -/
def zeroUtils : DicNodeUtilsModel where
  getBigramNodeImprobability := fun _ _ c => (0, c)

/-- A concrete root node. -/
def sampleNode : DicNode where
  accumulatedCost := 0
  inputCursor := 0
  editCount := 0
  proximityCount := 0
  isTerminal := false
  derivedFromSwap := false

/-- A concrete session with three input points. -/
def sampleSession : DicTraverseSession where
  inputSize := 3
  offsetDict := 0

/-! Claim theorems. -/

/-- C1: `isEditCorrection` is true exactly for OMISSION, INSERTION and
TRANSPOSITION, and false for every other tag — in particular for
ADDITIONAL_PROXIMITY and SUBSTITUTION, whose existing false behavior is
preserved. -/
theorem isEditCorrection_true_iff_omission_insertion_transposition :
    (∀ correctionType : CorrectionType,
        Weighting.isEditCorrection correctionType = true ↔
          (correctionType = CorrectionType.CT_OMISSION ∨
           correctionType = CorrectionType.CT_INSERTION ∨
           correctionType = CorrectionType.CT_TRANSPOSITION)) ∧
    Weighting.isEditCorrection CorrectionType.CT_ADDITIONAL_PROXIMITY = false ∧
    Weighting.isEditCorrection CorrectionType.CT_SUBSTITUTION = false := by
  refine ⟨fun correctionType => ?_, rfl, rfl⟩
  cases correctionType <;> simp [Weighting.isEditCorrection]

/-- C2: `getForwardInputCount` returns 0 for OMISSION, ADDITIONAL_PROXIMITY,
SUBSTITUTION, COMPLETION and TERMINAL; 1 for MATCH and SPACE_SUBSTITUTION;
and 2 for INSERTION and TRANSPOSITION. -/
theorem getForwardInputCount_table :
    Weighting.getForwardInputCount CorrectionType.CT_OMISSION = 0 ∧
    Weighting.getForwardInputCount CorrectionType.CT_ADDITIONAL_PROXIMITY = 0 ∧
    Weighting.getForwardInputCount CorrectionType.CT_SUBSTITUTION = 0 ∧
    Weighting.getForwardInputCount CorrectionType.CT_COMPLETION = 0 ∧
    Weighting.getForwardInputCount CorrectionType.CT_TERMINAL = 0 ∧
    Weighting.getForwardInputCount CorrectionType.CT_MATCH = 1 ∧
    Weighting.getForwardInputCount CorrectionType.CT_SPACE_SUBSTITUTION = 1 ∧
    Weighting.getForwardInputCount CorrectionType.CT_INSERTION = 2 ∧
    Weighting.getForwardInputCount CorrectionType.CT_TRANSPOSITION = 2 := by
  repeat first | exact rfl | refine ⟨rfl, ?_⟩

/-- C3: for every tag other than NEW_WORD and TERMINAL, the language cost
computed by `getLanguageCost` is exactly 0, for every policy, resolver,
session, nodes and cache; only NEW_WORD and TERMINAL may return a non-zero
language cost. -/
theorem getLanguageCost_zero_outside_newWord_terminal
    (weighting : Weighting) (utils : DicNodeUtilsModel)
    (correctionType : CorrectionType) (traverseSession : DicTraverseSession)
    (parentDicNode dicNode : DicNode) (bigramCacheMap : BigramCacheMap)
    (h1 : correctionType ≠ CorrectionType.CT_NEW_WORD)
    (h2 : correctionType ≠ CorrectionType.CT_TERMINAL) :
    (Weighting.getLanguageCost weighting utils correctionType traverseSession
        parentDicNode dicNode bigramCacheMap).1 = 0 := by
  cases correctionType <;>
    first
      | rfl
      | exact absurd rfl h1
      | exact absurd rfl h2

/-- C3 witness: the language cost of a MATCH step is 0 at concrete inputs. -/
theorem getLanguageCost_zero_outside_newWord_terminal_witness :
    (Weighting.getLanguageCost zeroWeighting zeroUtils CorrectionType.CT_MATCH
        sampleSession sampleNode sampleNode []).1 = 0 :=
  getLanguageCost_zero_outside_newWord_terminal zeroWeighting zeroUtils
    CorrectionType.CT_MATCH sampleSession sampleNode sampleNode []
    (by decide) (by decide)

/-- C4: in the node-update algorithm, when the spatial-cost computation set
the input-state override flag the candidate's cursor is taken from the
policy-provided input state; otherwise the cursor advances by
`getForwardInputCount` from the parent's cursor (the candidate starting at
the parent's cursor), and the node is marked as derived from a swap exactly
when the operation is TRANSPOSITION. -/
theorem addCostAndForwardInputIndex_cursor_update
    (weighting : Weighting) (utils : DicNodeUtilsModel)
    (correctionType : CorrectionType) (traverseSession : DicTraverseSession)
    (parentDicNode dicNode : DicNode) (bigramCacheMap : BigramCacheMap)
    (hinit : dicNode.inputCursor = parentDicNode.inputCursor) :
    (((Weighting.getSpatialCost weighting correctionType traverseSession
          parentDicNode dicNode ⟨false, 0⟩).2.mNeedsToUpdateInputStateG = true →
        (Weighting.addCostAndForwardInputIndex weighting utils correctionType
            traverseSession parentDicNode dicNode bigramCacheMap).1.inputCursor =
          (Weighting.getSpatialCost weighting correctionType traverseSession
              parentDicNode dicNode ⟨false, 0⟩).2.mInputIndex) ∧
      ((Weighting.getSpatialCost weighting correctionType traverseSession
          parentDicNode dicNode ⟨false, 0⟩).2.mNeedsToUpdateInputStateG = false →
        (Weighting.addCostAndForwardInputIndex weighting utils correctionType
            traverseSession parentDicNode dicNode bigramCacheMap).1.inputCursor =
          parentDicNode.inputCursor + Weighting.getForwardInputCount correctionType ∧
        (Weighting.addCostAndForwardInputIndex weighting utils correctionType
            traverseSession parentDicNode dicNode bigramCacheMap).1.derivedFromSwap =
          decide (correctionType = CorrectionType.CT_TRANSPOSITION))) := by
  constructor <;> intro hflag <;>
    simp [Weighting.addCostAndForwardInputIndex, DicNode.addCost,
      DicNode.updateInputIndexG, DicNode.forwardInputIndex, hflag, hinit]

/-- C4 witness: a MATCH step under the zero policy (which does not set the
override flag) advances the cursor by 1 from the parent's cursor. -/
theorem addCostAndForwardInputIndex_cursor_update_witness :
    (((Weighting.getSpatialCost zeroWeighting CorrectionType.CT_MATCH
          sampleSession sampleNode sampleNode ⟨false, 0⟩).2.mNeedsToUpdateInputStateG = true →
        (Weighting.addCostAndForwardInputIndex zeroWeighting zeroUtils
            CorrectionType.CT_MATCH sampleSession sampleNode sampleNode []).1.inputCursor =
          (Weighting.getSpatialCost zeroWeighting CorrectionType.CT_MATCH
              sampleSession sampleNode sampleNode ⟨false, 0⟩).2.mInputIndex) ∧
      ((Weighting.getSpatialCost zeroWeighting CorrectionType.CT_MATCH
          sampleSession sampleNode sampleNode ⟨false, 0⟩).2.mNeedsToUpdateInputStateG = false →
        (Weighting.addCostAndForwardInputIndex zeroWeighting zeroUtils
            CorrectionType.CT_MATCH sampleSession sampleNode sampleNode []).1.inputCursor =
          sampleNode.inputCursor + Weighting.getForwardInputCount CorrectionType.CT_MATCH ∧
        (Weighting.addCostAndForwardInputIndex zeroWeighting zeroUtils
            CorrectionType.CT_MATCH sampleSession sampleNode sampleNode []).1.derivedFromSwap =
          decide (CorrectionType.CT_MATCH = CorrectionType.CT_TRANSPOSITION))) :=
  addCostAndForwardInputIndex_cursor_update zeroWeighting zeroUtils
    CorrectionType.CT_MATCH sampleSession sampleNode sampleNode [] rfl

/-- C5: `isProximityCorrection` is true only when the tag is MATCH and the
policy's near-key predicate holds on the (session, node) pair; for every
other tag it is false regardless of policy, session and node. -/
theorem isProximityCorrection_eq_match_and_proximityDicNode
    (weighting : Weighting) (correctionType : CorrectionType)
    (traverseSession : DicTraverseSession) (dicNode : DicNode) :
    Weighting.isProximityCorrection weighting correctionType traverseSession dicNode =
      (decide (correctionType = CorrectionType.CT_MATCH) &&
        weighting.isProximityDicNode traverseSession dicNode) := by
  cases correctionType <;> simp [Weighting.isProximityCorrection]

/-- C6: for every tag outside the ten-tag taxonomy, `getSpatialCost`
returns exactly 0 and leaves the input-state side-channel unchanged —
the fail-open `default:` branch, never an error. -/
theorem getSpatialCost_unknown_zero
    (weighting : Weighting) (code : ℤ) (traverseSession : DicTraverseSession)
    (parentDicNode dicNode : DicNode) (inputStateG : DicNode_InputStateG) :
    Weighting.getSpatialCost weighting (CorrectionType.CT_UNKNOWN code)
        traverseSession parentDicNode dicNode inputStateG = (0, inputStateG) :=
  rfl

/-- Helper: the accumulated cost produced by one node-update call is the
candidate's starting accumulated cost plus the (optionally normalized) sum
of the spatial and language costs — both cursor-update branches preserve
the accumulated cost, and `DicNode.addCost` adds the combined increment. -/
theorem addCostAndForwardInputIndex_fst_accumulatedCost
    (weighting : Weighting) (utils : DicNodeUtilsModel)
    (correctionType : CorrectionType) (traverseSession : DicTraverseSession)
    (parentDicNode dicNode : DicNode) (bigramCacheMap : BigramCacheMap) :
    (Weighting.addCostAndForwardInputIndex weighting utils correctionType
        traverseSession parentDicNode dicNode bigramCacheMap).1.accumulatedCost =
      dicNode.accumulatedCost +
        (if weighting.needsToNormalizeCompoundDistance then
          ((Weighting.getSpatialCost weighting correctionType traverseSession
              parentDicNode dicNode ⟨false, 0⟩).1 +
           (Weighting.getLanguageCost weighting utils correctionType traverseSession
              parentDicNode dicNode bigramCacheMap).1) /
            ((max 1 traverseSession.getInputSize : ℕ) : ℚ)
        else
          (Weighting.getSpatialCost weighting correctionType traverseSession
              parentDicNode dicNode ⟨false, 0⟩).1 +
          (Weighting.getLanguageCost weighting utils correctionType traverseSession
              parentDicNode dicNode bigramCacheMap).1) := by
  by_cases hflag : (Weighting.getSpatialCost weighting correctionType traverseSession
      parentDicNode dicNode ⟨false, 0⟩).2.mNeedsToUpdateInputStateG <;>
    simp [Weighting.addCostAndForwardInputIndex, DicNode.addCost,
      DicNode.updateInputIndexG, DicNode.forwardInputIndex, hflag]

/-- C7: for every node-update call whose spatial and language costs are
non-negative and whose candidate starts at the parent's accumulated cost,
the updated candidate's accumulated cost is at least the parent's: the
increment is the (optionally normalized) sum of the two costs. -/
theorem addCostAndForwardInputIndex_cost_monotone
    (weighting : Weighting) (utils : DicNodeUtilsModel)
    (correctionType : CorrectionType) (traverseSession : DicTraverseSession)
    (parentDicNode dicNode : DicNode) (bigramCacheMap : BigramCacheMap)
    (hinit : dicNode.accumulatedCost = parentDicNode.accumulatedCost)
    (hs : 0 ≤ (Weighting.getSpatialCost weighting correctionType traverseSession
        parentDicNode dicNode ⟨false, 0⟩).1)
    (hl : 0 ≤ (Weighting.getLanguageCost weighting utils correctionType
        traverseSession parentDicNode dicNode bigramCacheMap).1) :
    parentDicNode.accumulatedCost ≤
      (Weighting.addCostAndForwardInputIndex weighting utils correctionType
          traverseSession parentDicNode dicNode bigramCacheMap).1.accumulatedCost := by
  have hsum : (0 : ℚ) ≤
      (Weighting.getSpatialCost weighting correctionType traverseSession
          parentDicNode dicNode ⟨false, 0⟩).1 +
      (Weighting.getLanguageCost weighting utils correctionType traverseSession
          parentDicNode dicNode bigramCacheMap).1 := add_nonneg hs hl
  have hdiv : (0 : ℚ) ≤
      ((max 1 traverseSession.getInputSize : ℕ) : ℚ) := by positivity
  rw [addCostAndForwardInputIndex_fst_accumulatedCost, hinit]
  refine le_add_of_nonneg_right ?_
  split_ifs
  · exact div_nonneg hsum hdiv
  · exact hsum

/-- C7 witness: under the zero policy the TERMINAL step leaves the
accumulated cost at the parent's value, hence not below it. -/
theorem addCostAndForwardInputIndex_cost_monotone_witness :
    sampleNode.accumulatedCost ≤
      (Weighting.addCostAndForwardInputIndex zeroWeighting zeroUtils
          CorrectionType.CT_TERMINAL sampleSession sampleNode sampleNode
          []).1.accumulatedCost :=
  addCostAndForwardInputIndex_cost_monotone zeroWeighting zeroUtils
    CorrectionType.CT_TERMINAL sampleSession sampleNode sampleNode [] rfl
    (le_refl 0) (le_refl 0)

/-- C8: one node-update call writes only the candidate node and the bigram
cache: the parent node and the session (with its input sequence) in the
resulting traversal state are the ones it started from.  Determinism is by
construction: `addCostStep` is a total function of the policy, the
resolver, the operation and the state. -/
theorem addCostStep_frame (weighting : Weighting) (utils : DicNodeUtilsModel)
    (correctionType : CorrectionType) (st : TraversalState) :
    (Weighting.addCostStep weighting utils correctionType st).parentDicNode =
        st.parentDicNode ∧
    (Weighting.addCostStep weighting utils correctionType st).traverseSession =
        st.traverseSession :=
  ⟨rfl, rfl⟩

/-- C9: `getForwardInputCount` returns 0 for NEW_WORD: starting a new
dictionary word never advances the input cursor. -/
theorem getForwardInputCount_newWord :
    Weighting.getForwardInputCount CorrectionType.CT_NEW_WORD = 0 :=
  rfl

/-- C10: edit corrections and proximity corrections are mutually exclusive:
no tag is classified as both, for any policy, session and node. -/
theorem isEditCorrection_isProximityCorrection_mutually_exclusive
    (weighting : Weighting) (correctionType : CorrectionType)
    (traverseSession : DicTraverseSession) (dicNode : DicNode) :
    (Weighting.isEditCorrection correctionType &&
      Weighting.isProximityCorrection weighting correctionType traverseSession
        dicNode) = false := by
  cases correctionType <;>
    simp [Weighting.isEditCorrection, Weighting.isProximityCorrection]

end latinime
